import Mathlib

/-!
Verification of the slow-server fixture (src/load_balancer/slow-server/server.py)
against its natural-language specification.

The program (after its two module lines pulling in BaseHTTPRequestHandler and
HTTPServer from http.server, and time) is:

  class SlowHandler(BaseHTTPRequestHandler):
      def do_GET(self):
          time.sleep(5)  # simulate slow processing
          self.send_response(200)
          self.send_header("Content-type", "text/plain")
          self.end_headers()
          self.wfile.write(b"Response from SLOW SERVER (5s delay)")

  HTTPServer(("0.0.0.0", 80), SlowHandler).serve_forever()

The handler body is embedded as a trace of externally visible events.  The
behaviour the handler inherits from the CPython standard library
(BaseHTTPRequestHandler method dispatch, send_response, send_error, and the
synchronous socketserver serve loop) is embedded from the CPython 3 sources of
http.server and socketserver, as documented on each definition.
-/

/-- A parsed inbound HTTP request as BaseHTTPRequestHandler presents it to a
handler method: command (method), path, headers and body.  The SlowHandler
code never reads any of these fields. -/
structure Request where
  method : String
  path : String
  headers : List (String × String)
  body : String
deriving DecidableEq

/-- Externally visible actions a handler run can perform, in order:
a time.sleep of the given number of seconds, the buffering of a status line
(send_response_only), the buffering of one header line (send_header), the
header terminator plus flush (end_headers), and a direct body write
(wfile.write). -/
inductive Event where
  | sleep (seconds : Nat)
  | sendStatusLine (protocol : String) (code : Nat) (message : String)
  | sendHeader (keyword value : String)
  | endHeaders
  | write (data : String)
deriving DecidableEq

/-- The delay constant: the argument of time.sleep on line 6 of server.py. -/
def delaySeconds : Nat := 5

/-- The fixed body bytes written on line 10 of server.py. -/
def responseBody : String := "Response from SLOW SERVER (5s delay)"

/-- First component of the bind address on line 12 of server.py. -/
def bindHost : String := "0.0.0.0"

/-- Second component of the bind address on line 12 of server.py. -/
def bindPort : Nat := 80

/-- The address pair passed to the HTTPServer constructor on line 12. -/
def serverAddress : String × Nat := (bindHost, bindPort)

/-- CPython http.server BaseHTTPRequestHandler.protocol_version class default:
the HTTP version placed in every status line.  SlowHandler does not override
it, so it stays at its default value. -/
def protocol_version : String := "HTTP/1.0"

/-- Embeds CPython BaseHTTPRequestHandler.send_response(code, message):
it buffers the status line via send_response_only, which formats
protocol_version, the numeric code and the message, and then always buffers
two standard headers carrying the server software version string and the
current date.  Those two runtime strings are passed in as parameters sv and
date. -/
def send_response (sv date : String) (code : Nat) (message : String) : List Event :=
  [Event.sendStatusLine protocol_version code message,
   Event.sendHeader "Server" sv,
   Event.sendHeader "Date" date]

/-- SlowHandler.do_GET (lines 5-10 of server.py): time.sleep(5), then
send_response(200) (message defaults to "OK" for code 200), then
send_header("Content-type", "text/plain"), end_headers(), and the body
write. -/
def do_GET (sv date : String) : List Event :=
  Event.sleep delaySeconds ::
    (send_response sv date 200 "OK" ++
      [Event.sendHeader "Content-type" "text/plain",
       Event.endHeaders,
       Event.write responseBody])

/-- The ASCII single-quote character, used by the Python %r formatting of a
string. -/
def quoteChar : String := String.singleton (Char.ofNat 39)

/-- Python repr of a plain string as used in "Unsupported method (%r)":
the string between single quotes. -/
def pyReprStr (s : String) : String := quoteChar ++ s ++ quoteChar

/-- html.escape(s, quote=False) as applied by send_error to the message and
explanation before substituting them into the error page. -/
def htmlEscape (s : String) : String :=
  String.join (s.data.map (fun c =>
    if c = Char.ofNat 38 then "&amp;"
    else if c = Char.ofNat 60 then "&lt;"
    else if c = Char.ofNat 62 then "&gt;"
    else String.singleton c))

/-- CPython http.server DEFAULT_ERROR_MESSAGE with the %(code)d, %(message)s
and %(explain)s fields substituted (message and explain arrive already
html-escaped). -/
def errorMessageBody (code : Nat) (message explain : String) : String :=
  "<!DOCTYPE HTML>\n<html lang=\"en\">\n    <head>\n        <meta charset=\"utf-8\">\n        <title>Error response</title>\n    </head>\n    <body>\n        <h1>Error response</h1>\n        <p>Error code: " ++ toString code
    ++ "</p>\n        <p>Message: " ++ message
    ++ ".</p>\n        <p>Error code explanation: " ++ toString code
    ++ " - " ++ explain ++ ".</p>\n    </body>\n</html>\n"

/-- Embeds CPython BaseHTTPRequestHandler.send_error(code, message, explain)
for the command (method) of the current request: send_response(code, message),
a Connection: close header, and - for codes that admit a body and any command
other than HEAD - the error content type, the Content-Length of the UTF-8
encoded error page, the header terminator and the error page itself;
otherwise just the header terminator. -/
def send_error (sv date command : String) (code : Nat) (message explain : String) : List Event :=
  let body := errorMessageBody code (htmlEscape message) (htmlEscape explain)
  send_response sv date code message ++
    [Event.sendHeader "Connection" "close"] ++
    (if 200 ≤ code ∧ code ≠ 204 ∧ code ≠ 205 ∧ code ≠ 304 ∧ command ≠ "HEAD" then
      [Event.sendHeader "Content-Type" "text/html;charset=utf-8",
       Event.sendHeader "Content-Length" (toString body.utf8ByteSize),
       Event.endHeaders,
       Event.write body]
     else
      [Event.endHeaders])

/-- Embeds the method dispatch of CPython BaseHTTPRequestHandler
.handle_one_request: the handler method do_ + command is looked up on the
handler class; SlowHandler defines do_GET and nothing else, so a GET runs
do_GET and every other command gets send_error(501, "Unsupported method (%r)")
whose explanation defaults to the long message registered for 501, "Server
does not support this operation". -/
def handle_one_request (sv date : String) (r : Request) : List Event :=
  if r.method = "GET" then
    do_GET sv date
  else
    send_error sv date r.method 501
      ("Unsupported method (" ++ pyReprStr r.method ++ ")")
      "Server does not support this operation"

/-- The bytes an event puts on the wire: a sleep writes nothing, a status line
is protocol SP code SP message CRLF, a header line is keyword colon space
value CRLF, end_headers writes the blank CRLF line, a body write writes its
data.  (Buffered lines are flushed unchanged by end_headers, so concatenating
in event order gives the bytes the peer sees.) -/
def eventWire : Event → String
  | Event.sleep _ => ""
  | Event.sendStatusLine proto code message =>
      proto ++ " " ++ toString code ++ " " ++ message ++ "\r\n"
  | Event.sendHeader k v => k ++ ": " ++ v ++ "\r\n"
  | Event.endHeaders => "\r\n"
  | Event.write d => d

/-- The full byte string a trace of events puts on the wire. -/
def wireOf : List Event → String
  | [] => ""
  | e :: t => eventWire e ++ wireOf t

/-- The wire response exactly as section 6 of the spec states it, for
comparison with the one the code produces: status line HTTP/1.1 200 OK, the
single Content-type header, a blank line and the fixed body. -/
def specWireResponse : String :=
  "HTTP/1.1 200 OK\r\nContent-type: text/plain\r\n\r\nResponse from SLOW SERVER (5s delay)"

/-- All status codes sent in a trace. -/
def statusCodes (t : List Event) : List Nat :=
  t.filterMap (fun e => match e with
    | Event.sendStatusLine _ c _ => some c
    | _ => none)

/-- All status-line messages sent in a trace. -/
def statusMessages (t : List Event) : List String :=
  t.filterMap (fun e => match e with
    | Event.sendStatusLine _ _ m => some m
    | _ => none)

/-- The concatenated body bytes written in a trace. -/
def bodyOf (t : List Event) : String :=
  String.join (t.filterMap (fun e => match e with
    | Event.write d => some d
    | _ => none))

/-- Whether a trace contains any sleep event. -/
def hasSleep (t : List Event) : Bool :=
  t.any (fun e => match e with
    | Event.sleep _ => true
    | _ => false)

/-- Total seconds slept in a trace. -/
def sleepTotal (t : List Event) : Nat :=
  (t.map (fun e => match e with
    | Event.sleep n => n
    | _ => 0)).sum

/-- Embeds the scheduling of socketserver.BaseServer.serve_forever as used
through HTTPServer on line 12: the base server is synchronous - each request
is completed before the next one is started (there is no ThreadingMixIn).
In the discrete time model every listed request is already pending at time
now, a time.sleep n advances the clock by n seconds and everything else takes
no model time; the result lists the completion time of each request in
arrival order. -/
def completionTimes (sv date : String) (now : Nat) : List Request → List Nat
  | [] => []
  | r :: rs =>
      let fin := now + sleepTotal (handle_one_request sv date r)
      fin :: completionTimes sv date fin rs

/-- The state of the peer connection while a request is being handled. -/
inductive ConnState where
  | ok
  | peerClosed
deriving DecidableEq

/-- Whether an event actually touches the socket: end_headers flushes the
buffered header lines and wfile.write sends body bytes; a sleep does nothing
to the socket, and send_response/send_header only append to the in-process
header buffer. -/
def touchesSocket : Event → Bool
  | Event.endHeaders => true
  | Event.write _ => true
  | _ => false

/-- Outcome of one handler run: the trace completed normally, or the run was
cut short by an exception (a failing socket operation) after the listed
events. -/
inductive HandlerResult where
  | completed (trace : List Event)
  | failed (trace : List Event)
deriving DecidableEq

/-- The events a handler run actually performed. -/
def eventsOf : HandlerResult → List Event
  | HandlerResult.completed t => t
  | HandlerResult.failed t => t

/-- One handler run on a connection: with a live peer the whole trace runs;
if the peer closed the connection during the delay, time.sleep is unaffected
and the header buffering is local, so everything up to the first socket
operation still executes, and that first socket operation raises (broken
pipe), aborting the rest of the run. -/
def runHandler (sv date : String) (c : ConnState) (r : Request) : HandlerResult :=
  match c with
  | ConnState.ok => HandlerResult.completed (handle_one_request sv date r)
  | ConnState.peerClosed =>
      HandlerResult.failed
        ((handle_one_request sv date r).takeWhile (fun e => !touchesSocket e))

/-- Embeds the serve_forever loop of socketserver.BaseServer: each accepted
connection is processed by _handle_request_noblock, which wraps the handler
in try/except and routes any exception to handle_error (print and continue),
so the loop always proceeds to the next connection. -/
def serve_loop (sv date : String) : List (Request × ConnState) → List HandlerResult
  | [] => []
  | (r, c) :: rest => runHandler sv date c r :: serve_loop sv date rest

/-- POSIX signals relevant to stopping the fixture. -/
inductive Signal where
  | sigint
  | sigterm
deriving DecidableEq

/-- What can happen to a run of the process. -/
inductive RunCondition where
  | bindFails
  | interrupted (s : Signal)
  | undisturbed
deriving DecidableEq

/-- How a run of the process ends. -/
inductive ProcessOutcome where
  | exited (code : Nat)
  | runsForever
deriving DecidableEq

/-- Shell-visible exit status of a process killed by a signal: 128 plus the
signal number (SIGINT is 2, SIGTERM is 15). -/
def signalExitStatus : Signal → Nat
  | Signal.sigint => 130
  | Signal.sigterm => 143

/-- Embeds the module body HTTPServer((bindHost, bindPort), SlowHandler)
.serve_forever() under CPython runtime semantics: a bind failure raises
OSError out of the constructor and, uncaught, terminates the interpreter with
status 1; SIGINT raises KeyboardInterrupt inside serve_forever and, uncaught,
CPython (3.8+) re-kills itself with SIGINT, status 130; SIGTERM keeps its
default disposition and kills the process, status 143; with no failure and no
signal, serve_forever loops forever and the process never exits. -/
def mainProcess : RunCondition → ProcessOutcome
  | RunCondition.bindFails => ProcessOutcome.exited 1
  | RunCondition.interrupted s => ProcessOutcome.exited (signalExitStatus s)
  | RunCondition.undisturbed => ProcessOutcome.runsForever

/-- Whether server.py reads command line arguments: it never touches
sys.argv. -/
def usesCommandLineArgs : Bool := false

/-- A concrete server software version string, as version_string() produces. -/
def sv0 : String := "BaseHTTP/0.6 Python/3.12.3"

/-- A concrete Date header value, as date_time_string() produces. -/
def date0 : String := "Mon, 01 Jan 2024 00:00:00 GMT"

/-- A concrete GET request. -/
def getRequest : Request :=
  { method := "GET", path := "/", headers := [], body := "" }

/-- A second concrete GET request with different path, headers and body. -/
def getRequest2 : Request :=
  { method := "GET", path := "/other", headers := [("X-Secret", "42")], body := "payload" }

/-- A concrete POST request. -/
def postRequest : Request :=
  { method := "POST", path := "/", headers := [], body := "x=1" }

/-- C1: the spec requires each of N simultaneous connections to complete in
about one delay, not N times the delay; but the synchronous HTTPServer
serializes them: with two GET connections pending at time 0 the completion
times are 5 and 10 seconds - the second request takes two delays, not one. -/
theorem c1_requests_serialized :
    completionTimes sv0 date0 0 [getRequest, getRequest] =
      [delaySeconds, 2 * delaySeconds] ∧
    2 * delaySeconds ≠ delaySeconds := by decide

/-- C6: the listener binds the all-interfaces host 0.0.0.0 and port 80, both
fixed constants of the module body. -/
theorem c6_bind_address :
    serverAddress = ("0.0.0.0", 80) ∧ bindHost = "0.0.0.0" ∧ bindPort = 80 := by
  decide

/-- C8 as stated is false: the spec counts a signal-triggered shutdown as the
clean, exit-code-0 case, but SIGINT during serve_forever becomes an uncaught
KeyboardInterrupt and the process terminates with status 130, not 0. -/
theorem c8_counterexample :
    mainProcess (RunCondition.interrupted Signal.sigint) =
      ProcessOutcome.exited 130 ∧ (130 : Nat) ≠ 0 := by decide

/-- C8 amended: the process reads no command line arguments and exits
non-zero (status 1, fatal at startup) when the listener cannot bind; it never
exits with code 0 - a signal-triggered termination carries a non-zero
signal-derived status, and an undisturbed run never returns from
serve_forever. -/
theorem c8_amended :
    usesCommandLineArgs = false ∧
    mainProcess RunCondition.bindFails = ProcessOutcome.exited 1 ∧
    (∀ c : RunCondition, mainProcess c ≠ ProcessOutcome.exited 0) := by
  refine ⟨rfl, rfl, ?_⟩
  intro c
  cases c with
  | bindFails => decide
  | interrupted s => cases s <;> decide
  | undisturbed => decide

/-- C3: in every GET handling the first event is the 5 second sleep, no
further sleep follows, and only after it does the handler emit the 200 status
line, its headers (among them Content-type: text/plain), the header
terminator and the fixed body - the delay precedes every byte of the
response. -/
theorem c3_delay_then_response (sv date : String) :
    (do_GET sv date).head? = some (Event.sleep delaySeconds) ∧
    delaySeconds = 5 ∧
    sleepTotal (do_GET sv date) = 5 ∧
    (do_GET sv date).tail =
      [Event.sendStatusLine protocol_version 200 "OK",
       Event.sendHeader "Server" sv,
       Event.sendHeader "Date" date,
       Event.sendHeader "Content-type" "text/plain",
       Event.endHeaders,
       Event.write responseBody] ∧
    hasSleep ((do_GET sv date).tail) = false := by
  simp [do_GET, send_response, sleepTotal, hasSleep, delaySeconds]

/-- C5: noninterference of request content with the response body - any two
requests the server answers successfully (their method is GET, paths, headers
and bodies arbitrary) receive the identical fixed body bytes. -/
theorem c5_noninterference (sv date : String) (r1 r2 : Request)
    (h1 : r1.method = "GET") (h2 : r2.method = "GET") :
    bodyOf (handle_one_request sv date r1) =
      bodyOf (handle_one_request sv date r2) ∧
    bodyOf (handle_one_request sv date r1) = responseBody := by
  simp only [handle_one_request, h1, h2, if_pos]
  exact ⟨by trivial, by rfl⟩

/-- Witness for C5 at two concrete GET requests that differ in path, headers
and body. -/
theorem c5_noninterference_witness :
    bodyOf (handle_one_request sv0 date0 getRequest) =
      bodyOf (handle_one_request sv0 date0 getRequest2) ∧
    bodyOf (handle_one_request sv0 date0 getRequest) = responseBody :=
  c5_noninterference sv0 date0 getRequest getRequest2 rfl rfl

/-- C9: a request whose method is not GET gets no sleep at all; the base
class replies with a single 501 status line whose message is
Unsupported method (%r) of the method, and the fixed 200 body is not
produced. -/
theorem c9_non_get_501 (sv date : String) (r : Request)
    (h : r.method ≠ "GET") :
    hasSleep (handle_one_request sv date r) = false ∧
    statusCodes (handle_one_request sv date r) = [501] ∧
    statusMessages (handle_one_request sv date r) =
      ["Unsupported method (" ++ pyReprStr r.method ++ ")"] ∧
    200 ∉ statusCodes (handle_one_request sv date r) := by
  simp only [handle_one_request, h, if_neg, if_false]
  unfold send_error
  refine ⟨?_, ?_, ?_, ?_⟩
  · split <;> simp [hasSleep, send_response]
  · split <;> simp [statusCodes, send_response]
  · split <;> simp [statusMessages, send_response]
  · split <;> simp [statusCodes, send_response]

/-- Witness for C9 at a concrete POST request. -/
theorem c9_non_get_501_witness :
    hasSleep (handle_one_request sv0 date0 postRequest) = false ∧
    statusCodes (handle_one_request sv0 date0 postRequest) = [501] ∧
    statusMessages (handle_one_request sv0 date0 postRequest) =
      ["Unsupported method (" ++ pyReprStr "POST" ++ ")"] ∧
    200 ∉ statusCodes (handle_one_request sv0 date0 postRequest) :=
  c9_non_get_501 sv0 date0 postRequest (by decide)

/-- C10: within one GET handling the full 5 second sleep is the very first
event of the run whether the peer is still connected or has already closed
the connection; disconnection never skips or shortens the delay, and the
total time slept is the full delay in both cases, before any socket write is
attempted. -/
theorem c10_sleep_runs_before_write (sv date : String) (r : Request)
    (c : ConnState) (h : r.method = "GET") :
    (eventsOf (runHandler sv date c r)).head? =
      some (Event.sleep delaySeconds) ∧
    sleepTotal (eventsOf (runHandler sv date c r)) = delaySeconds := by
  cases c <;>
    simp [runHandler, eventsOf, handle_one_request, h, do_GET, send_response,
      sleepTotal, touchesSocket, List.takeWhile, delaySeconds]

/-- Witness for C10 at a concrete GET request on a connection the peer has
already closed. -/
theorem c10_sleep_runs_before_write_witness :
    (eventsOf (runHandler sv0 date0 ConnState.peerClosed getRequest)).head? =
      some (Event.sleep delaySeconds) ∧
    sleepTotal (eventsOf (runHandler sv0 date0 ConnState.peerClosed getRequest)) =
      delaySeconds :=
  c10_sleep_runs_before_write sv0 date0 getRequest ConnState.peerClosed rfl

/-- C2 as stated is false: a concrete POST request does not get the fixed
delay-then-200 behaviour - its trace contains no sleep event and carries
status 501, while the same GET request gets the sleep and status 200, so
methods are not treated identically. -/
theorem c2_counterexample :
    hasSleep (handle_one_request sv0 date0 postRequest) = false ∧
    statusCodes (handle_one_request sv0 date0 postRequest) = [501] ∧
    hasSleep (handle_one_request sv0 date0 getRequest) = true ∧
    statusCodes (handle_one_request sv0 date0 getRequest) = [200] := by
  decide

/-- C2 amended: only GET requests (of any path, headers and body) are
accepted without validation and get the fixed 5 second delay followed by the
fixed 200 response; a request of any other method gets no delay and a 501
error instead. -/
theorem c2_amended (sv date : String) (r : Request) :
    (r.method = "GET" →
      handle_one_request sv date r = do_GET sv date ∧
      hasSleep (handle_one_request sv date r) = true ∧
      statusCodes (handle_one_request sv date r) = [200] ∧
      bodyOf (handle_one_request sv date r) = responseBody) ∧
    (r.method ≠ "GET" →
      hasSleep (handle_one_request sv date r) = false ∧
      statusCodes (handle_one_request sv date r) = [501]) := by
  constructor
  · intro h
    simp only [handle_one_request, h, if_pos]
    refine ⟨by trivial, ?_, ?_, by rfl⟩
    · simp [do_GET, send_response, hasSleep]
    · simp [do_GET, send_response, statusCodes]
  · intro h
    simp only [handle_one_request, h, if_neg, if_false]
    unfold send_error
    constructor
    · split <;> simp [hasSleep, send_response]
    · split <;> simp [statusCodes, send_response]

/-- Witness for C2 amended at a concrete GET and a concrete POST request. -/
theorem c2_amended_witness :
    statusCodes (handle_one_request sv0 date0 getRequest) = [200] ∧
    statusCodes (handle_one_request sv0 date0 postRequest) = [501] :=
  ⟨((c2_amended sv0 date0 getRequest).1 rfl).2.2.1,
   ((c2_amended sv0 date0 postRequest).2 (by decide)).2⟩

/-- C4 as stated is false: at a concrete server version and date the bytes
the code puts on the wire are not the bit-exact response of the spec - the
status line says HTTP/1.0, and Server and Date headers precede the
Content-type header. -/
theorem c4_counterexample :
    wireOf (do_GET sv0 date0) ≠ specWireResponse ∧
    wireOf (do_GET sv0 date0) =
      "HTTP/1.0 200 OK\r\nServer: BaseHTTP/0.6 Python/3.12.3\r\nDate: Mon, 01 Jan 2024 00:00:00 GMT\r\nContent-type: text/plain\r\n\r\nResponse from SLOW SERVER (5s delay)" := by
  decide

/-- C4 amended: the wire response is the status line HTTP/1.0 200 OK, then a
Server header and a Date header added by the base class, then the
Content-type: text/plain header, a blank line and the fixed body - the body,
status code and Content-type agree with the spec but the protocol version
differs and two extra headers are present. -/
theorem c4_amended (sv date : String) :
    wireOf (do_GET sv date) =
      "HTTP/1.0 200 OK\r\n" ++ ("Server" ++ ": " ++ sv ++ "\r\n") ++
        (("Date" ++ ": " ++ date ++ "\r\n") ++
          ("Content-type: text/plain\r\n" ++
            ("\r\n" ++ "Response from SLOW SERVER (5s delay)"))) := by
  rfl

/-- The serve loop distributes over concatenation of the pending connection
list: what it does on one segment does not depend on the other. -/
lemma serve_loop_append (sv date : String)
    (l1 l2 : List (Request × ConnState)) :
    serve_loop sv date (l1 ++ l2) =
      serve_loop sv date l1 ++ serve_loop sv date l2 := by
  induction l1 with
  | nil => rfl
  | cons p rest ih =>
      obtain ⟨r, c⟩ := p
      simp [serve_loop, ih]

/-- The serve loop produces one outcome per pending connection and never
stops early. -/
lemma serve_loop_length (sv date : String)
    (l : List (Request × ConnState)) :
    (serve_loop sv date l).length = l.length := by
  induction l with
  | nil => rfl
  | cons p rest ih =>
      obtain ⟨r, c⟩ := p
      simp [serve_loop, ih]

/-- C7: per-request failures are isolated.  Wherever a connection sits in
the pending list, its outcome is exactly runHandler of its own request and
connection state, unaffected by failures before or after it; the loop
produces an outcome for every pending connection (a failing handler never
stops the listener); and when the peer disconnected during the delay the
handler abandons the response write - no event of its run touches the
socket. -/
theorem c7_failure_isolated (sv date : String)
    (pre post : List (Request × ConnState)) (r : Request) (c : ConnState) :
    serve_loop sv date (pre ++ (r, c) :: post) =
      serve_loop sv date pre ++
        runHandler sv date c r :: serve_loop sv date post ∧
    (serve_loop sv date (pre ++ (r, c) :: post)).length =
      pre.length + 1 + post.length ∧
    ∀ e ∈ eventsOf (runHandler sv date ConnState.peerClosed r),
      touchesSocket e = false := by
  refine ⟨?_, ?_, ?_⟩
  · rw [serve_loop_append]
    rfl
  · rw [serve_loop_length]
    simp
    omega
  · intro e he
    simp only [runHandler, eventsOf] at he
    have hp := List.mem_takeWhile_imp he
    simpa using hp
